import Mathlib

/-!
Shallow embedding of the STRIDE GPT application (src/main.py): the prompt
builders, the response interpreters, the three Streamlit submit handlers and
the session state they share.  The external boundaries (the OpenAI chat
completion call and the Python standard library's json.loads) are supplied to
the handlers as oracle parameters; everything the repository itself computes
is modelled directly from the source.
-/

namespace StrideGpt

/-- Values produced by Python's json module.  Numbers are kept as rationals;
no behaviour of this program depends on float rendering. -/
inductive JValue where
  | null
  | bool (b : Bool)
  | num (q : Rat)
  | str (s : String)
  | arr (elems : List JValue)
  | obj (fields : List (String × JValue))

/-- Python truthiness, as used by `if app_input:` and by the mitigations gate
`st.session_state['threat_model']`. -/
def pyTruthy : JValue → Bool
  | .null => false
  | .bool b => b
  | .num q => decide (q ≠ 0)
  | .str s => decide (s ≠ "")
  | .arr l => !l.isEmpty
  | .obj d => !d.isEmpty

/-- Python str() as applied by the f-string interpolations in
json_to_markdown.  Scalars are rendered exactly; the repr of nested
containers is abbreviated, since no behaviour of the program depends on the
rendered text of container-valued fields. -/
def pyStr : JValue → String
  | .null => "None"
  | .bool true => "True"
  | .bool false => "False"
  | .num q => toString q
  | .str s => s
  | .arr _ => "[...]"
  | .obj _ => "\x7b...\x7d"

/-- Python iteration as used by the for-loops of json_to_markdown: lists
yield their elements, strings their characters, dicts their keys; every
other value raises TypeError. -/
def pyIter : JValue → Except String (List JValue)
  | .arr l => .ok l
  | .str s => .ok (s.data.map (fun c => .str (String.mk [c])))
  | .obj d => .ok (d.map (fun kv => .str kv.1))
  | v => .error ("TypeError: " ++ pyStr v ++ " is not iterable")

/-- Python subscripting threat["key"]: dict lookup raising KeyError on a
missing key; subscripting any non-dict value by a string raises TypeError. -/
def pySubscript (v : JValue) (k : String) : Except String JValue :=
  match v with
  | .obj d =>
    match d.lookup k with
    | some x => .ok x
    | none => .error ("KeyError: " ++ k)
  | _ => .error ("TypeError: value is not subscriptable by " ++ k)

/-- One row of the threat-model markdown table (src/main.py line 88):
`f"| {threat['Threat Type']} | {threat['Scenario']} | {threat['Potential Impact']} |\n"`. -/
def threatRow (t : JValue) : Except String String := do
  let a ← pySubscript t "Threat Type"
  let b ← pySubscript t "Scenario"
  let c ← pySubscript t "Potential Impact"
  pure ("| " ++ pyStr a ++ " | " ++ pyStr b ++ " | " ++ pyStr c ++ " |\n")

/-- The `for threat in threat_model` loop of json_to_markdown: rows are built
in order and the first KeyError aborts the whole rendering. -/
def rowsM : List JValue → Except String (List String)
  | [] => .ok []
  | t :: ts => do
    let r ← threatRow t
    let rs ← rowsM ts
    pure (r :: rs)

/-- json_to_markdown (src/main.py lines 79-94).  A Python exception raised
while iterating or subscripting is modelled by the error case. -/
def json_to_markdown (threat_model improvement_suggestions : JValue) :
    Except String String := do
  let threats ← pyIter threat_model
  let rows ← rowsM threats
  let suggs ← pyIter improvement_suggestions
  pure ("## Threat Model\n\n"
    ++ "| Threat Type | Scenario | Potential Impact |\n"
    ++ "|-------------|----------|------------------|\n"
    ++ String.join rows
    ++ "\n\n## Improvement Suggestions\n\n"
    ++ String.join (suggs.map (fun s => "- " ++ pyStr s ++ "\n")))

/-- The backquote character, U+0060. -/
def backquote : Char := Char.ofNat 96

/-- The literal matched by the first regex alternative, ```mermaid. -/
def mermaidMarker : List Char :=
  backquote :: backquote :: backquote :: 'm' :: 'e' :: 'r' :: 'm' :: 'a' :: 'i' :: 'd' :: []

/-- The closing fence matched by the second regex alternative. -/
def ticks : List Char := backquote :: backquote :: backquote :: []

/-- Python's \s on the ASCII range (the regex operates on model output text;
non-ASCII whitespace is not modelled). -/
def pySpace (c : Char) : Bool :=
  c == ' ' || c == '\t' || c == '\n' || c == '\r' || c == '\x0b' || c == '\x0c'

/-- Whether a consumed whitespace run leaves the scanner at a line start. -/
def endsNewline (ws : List Char) : Bool := ws.getLast? == some '\n'

/-- The MULTILINE `$` assertion: end of text or just before a newline. -/
def atLineEnd : List Char → Bool
  | [] => true
  | c :: _ => c == '\n'

/-- re.sub(r'^```mermaid\s*|\s*```$', '', text, flags=re.MULTILINE), scanned
left to right exactly as Python's re module does: at each position the
line-anchored marker alternative is tried first (consuming its greedy
whitespace run), then the whitespace-run-followed-by-closing-fence-at-eol
alternative; every non-overlapping occurrence is removed, not only the
first.  `fuel` only bounds the recursion and always starts at the text
length; every step consumes at least one character. -/
def subFencesGo : Nat → Bool → List Char → List Char
  | 0, _, l => l
  | fuel + 1, bol, l =>
    match l with
    | [] => []
    | c :: cs =>
      if bol && mermaidMarker.isPrefixOf l then
        let rest := l.drop mermaidMarker.length
        subFencesGo fuel (endsNewline (rest.takeWhile pySpace)) (rest.dropWhile pySpace)
      else
        let rest := l.dropWhile pySpace
        if ticks.isPrefixOf rest && atLineEnd (rest.drop ticks.length) then
          subFencesGo fuel false (rest.drop ticks.length)
        else
          c :: subFencesGo fuel (c == '\n') cs

/-- The fence-stripping step of get_attack_tree (src/main.py line 144). -/
def stripFences (text : String) : String :=
  String.mk (subFencesGo text.data.length true text.data)

/-- get_attack_tree (src/main.py lines 115-146): the chat completion outcome
is an oracle; on success the content is fence-stripped, a failure of the
call propagates (the function installs no handler of its own). -/
def get_attack_tree (svc : Except String String) : Except String String :=
  match svc with
  | .ok content => .ok (stripFences content)
  | .error e => .error e

/-- get_threat_model (src/main.py lines 60-75): the chat completion outcome
and json.loads are oracles; the function installs no exception handler, so
both a failed call and a JSON parse failure propagate to the caller. -/
def get_threat_model (svc : Except String String)
    (loads : String → Except String JValue) : Except String JValue := do
  let content ← svc
  loads content

/-- str() of a Python list of strings, as the f-string renders the
`authentication` multiselect value.  Quote escaping inside elements is not
modelled; the UI only supplies the fixed option labels. -/
def pyListRepr (l : List String) : String :=
  "[" ++ String.intercalate ", " (l.map (fun s => "'" ++ s ++ "'")) ++ "]"

/-- Text of create_threat_model_prompt before the APPLICATION TYPE value. -/
def tmPromptPre : String :=
  "\nAct as a cyber security expert with more than 20 years experience of using the STRIDE threat modelling methodology to produce comprehensive threat models for a wide range of applications. Your task is to use the application description provided to you to produce a list of specific threats for the application. Your analysis should provide a credible scenario in which each threat could occur in the context of the application. It is very important that your responses are tailored to reflect the details you are given.\n\nWhen providing the threat model, use a JSON formatted response with the keys \"threat_model\" and \"improvement_suggestions\". Under \"threat_model\", include an array of objects with the keys \"Threat Type\", \"Scenario\", and \"Potential Impact\". \n\nUnder \"improvement_suggestions\", include an array of strings with suggestions on how the threat modeller can improve their application description in order to allow the tool to produce a more comprehensive threat model.\n\nAPPLICATION TYPE: "

/-- Text of create_threat_model_prompt after the APPLICATION DESCRIPTION
value (the JSON example block; f-string double braces render as single). -/
def tmPromptPost : String :=
  "\n\nExample of expected JSON response format:\n  \n    \x7b\n      \"threat_model\": [\n        \x7b\n          \"Threat Type\": \"Example Threat Type\",\n          \"Scenario\": \"Example Scenario\",\n          \"Potential Impact\": \"Example Potential Impact\"\n        \x7d\n        // ... more threats\n      ],\n      \"improvement_suggestions\": [\n        \"Example improvement suggestion.\",\n        // ... more suggestions\n      ]\n    \x7d\n"

/-- create_threat_model_prompt (src/main.py lines 24-56): pure f-string
interpolation of the six inputs into the fixed template. -/
def create_threat_model_prompt (app_type : String) (authentication : List String)
    (internet_facing sensitive_data pam app_input : String) : String :=
  tmPromptPre ++ app_type
    ++ "\nAUTHENTICATION METHODS: " ++ pyListRepr authentication
    ++ "\nINTERNET FACING: " ++ internet_facing
    ++ "\nSENSITIVE DATA: " ++ sensitive_data
    ++ "\nPRIVILEGED ACCESS MANAGEMENT: " ++ pam
    ++ "\nAPPLICATION DESCRIPTION: " ++ app_input
    ++ tmPromptPost

/-- create_mitigations_prompt (src/main.py lines 167-181). -/
def create_mitigations_prompt (threats : String) : String :=
  "\nAct as a cyber security expert with more than 20 years experience of using the STRIDE threat modelling methodology. Your task is to provide potential mitigations for the threats identified in the threat model. It is very important that your responses are tailored to reflect the details of the threats.\n\nYour output should be in the form of a markdown table with the following columns:\n    - Column A: Threat Type\n    - Column B: Scenario\n    - Column C: Suggested Mitigation(s)\n\nBelow is the list of identified threats:\n"
    ++ threats ++ "\n\nYOUR RESPONSE:\n"

/-- The application type selectbox options (src/main.py lines 231-242). -/
inductive AppType where
  | web | mobile | desktop | cloud | iot | other

/-- The selected label string of an application type. -/
def AppType.toText : AppType → String
  | .web => "Web application"
  | .mobile => "Mobile application"
  | .desktop => "Desktop application"
  | .cloud => "Cloud application"
  | .iot => "IoT application"
  | .other => "Other"

/-- The data sensitivity selectbox options (src/main.py lines 244-255). -/
inductive Sensitivity where
  | topSecret | secret | confidential | restricted | unclassified | noneLevel

/-- The selected label string of a sensitivity level. -/
def Sensitivity.toText : Sensitivity → String
  | .topSecret => "Top Secret"
  | .secret => "Secret"
  | .confidential => "Confidential"
  | .restricted => "Restricted"
  | .unclassified => "Unclassified"
  | .noneLevel => "None"

/-- The Yes/No selectbox options used for PAM and internet-facing. -/
inductive YesNo where
  | yes | no

/-- The selected label string of a Yes/No choice. -/
def YesNo.toText : YesNo → String
  | .yes => "Yes"
  | .no => "No"

/-- The authentication multiselect options (src/main.py lines 271-275). -/
inductive AuthMethod where
  | sso | mfa | oauth2 | basic | noAuth

/-- The label string of an authentication method option. -/
def AuthMethod.toText : AuthMethod → String
  | .sso => "SSO"
  | .mfa => "MFA"
  | .oauth2 => "OAUTH2"
  | .basic => "Basic"
  | .noAuth => "None"

/-- The per-session Streamlit state the handlers share: the stored value is
st.session_state['threat_model'], absent until first written. -/
structure SessionState where
  threat_model : Option JValue

/-- What one script rerun of a submit handler produces: the session state it
leaves behind, the st.error messages it rendered, the download artifact it
offered, whether a generation-service call was issued, and whether the rerun
aborted with an uncaught Python exception. -/
structure StepResult where
  state : SessionState
  errors : List String
  download : Option String
  callAttempted : Bool
  crashed : Bool

/-- The handler's read of the parsed response object
(src/main.py line 404): `model_output.get("threat_model", [])`. -/
def extractThreatModel (d : List (String × JValue)) : JValue :=
  (d.lookup "threat_model").getD (.arr [])

/-- The handler's read of the parsed response object
(src/main.py line 405): `model_output.get("improvement_suggestions", [])`. -/
def extractSuggestions (d : List (String × JValue)) : JValue :=
  (d.lookup "improvement_suggestions").getD (.arr [])

/-- The Threat Model submit handler (src/main.py lines 388-429).  `svc` is
the chat completion outcome and `loads` is json.loads, both oracles consumed
through get_threat_model.  On any exception inside the try block the handler
shows "Error generating threat model: ..." and then crashes on the
download_button line, whose data argument `markdown_output` is undefined in
that rerun (a NameError); the session write at line 408 happens before
json_to_markdown runs, so a rendering failure still leaves the parsed value
stored. -/
def threatModelStep (pressed : Bool) (app_input : String)
    (svc : Except String String) (loads : String → Except String JValue)
    (s : SessionState) : StepResult :=
  if pressed ∧ app_input ≠ "" then
    match get_threat_model svc loads with
    | .ok (.obj d) =>
      let tm := extractThreatModel d
      let sugg := extractSuggestions d
      match json_to_markdown tm sugg with
      | .ok md =>
        { state := ⟨some tm⟩, errors := [], download := some md,
          callAttempted := true, crashed := false }
      | .error e =>
        { state := ⟨some tm⟩, errors := ["Error generating threat model: " ++ e],
          download := none, callAttempted := true, crashed := true }
    | .ok v =>
      { state := s,
        errors := ["Error generating threat model: AttributeError: "
          ++ pyStr v ++ " has no attribute get"],
        download := none, callAttempted := true, crashed := true }
    | .error e =>
      { state := s, errors := ["Error generating threat model: " ++ e],
        download := none, callAttempted := true, crashed := true }
  else if pressed ∧ app_input = "" then
    { state := s, errors := ["Please enter your application details before submitting."],
      download := none, callAttempted := false, crashed := false }
  else
    { state := s, errors := [], download := none, callAttempted := false, crashed := false }

/-- The Attack Tree submit handler (src/main.py lines 436-469).  Note the
source has no empty-description error branch in this section: with an empty
description the handler renders nothing at all. -/
def attackTreeStep (pressed : Bool) (app_input : String)
    (svc : Except String String) (s : SessionState) : StepResult :=
  if pressed ∧ app_input ≠ "" then
    match get_attack_tree svc with
    | .ok code =>
      { state := s, errors := [], download := some code,
        callAttempted := true, crashed := false }
    | .error e =>
      { state := s, errors := ["Error generating attack tree: " ++ e],
        download := none, callAttempted := true, crashed := false }
  else
    { state := s, errors := [], download := none, callAttempted := false, crashed := false }

/-- The Mitigations submit handler (src/main.py lines 476-508).  The gate at
line 483 is key presence AND Python truthiness of the stored value; the
json_to_markdown call at line 485 runs outside the try/except, so a KeyError
there is an uncaught crash before any service call. -/
def mitigationsStep (pressed : Bool) (svc : Except String String)
    (s : SessionState) : StepResult :=
  if pressed then
    match s.threat_model with
    | some v =>
      if pyTruthy v then
        match json_to_markdown v (.arr []) with
        | .error _ =>
          { state := s, errors := [], download := none,
            callAttempted := false, crashed := true }
        | .ok threats_markdown =>
          let _prompt := create_mitigations_prompt threats_markdown
          match svc with
          | .ok text =>
            { state := s, errors := [], download := some text,
              callAttempted := true, crashed := false }
          | .error e =>
            { state := s, errors := ["Error suggesting mitigations: " ++ e],
              download := none, callAttempted := true, crashed := false }
      else
        { state := s,
          errors := ["Please generate a threat model first before suggesting mitigations."],
          download := none, callAttempted := false, crashed := false }
    | none =>
      { state := s,
        errors := ["Please generate a threat model first before suggesting mitigations."],
        download := none, callAttempted := false, crashed := false }
  else
    { state := s, errors := [], download := none, callAttempted := false, crashed := false }

/-- One user interaction: which submit button fired, with the widget inputs
and the oracle outcomes of the external boundaries for that rerun. -/
inductive Event where
  | tmEv (pressed : Bool) (app_input : String)
      (svc : Except String String) (loads : String → Except String JValue)
  | atEv (pressed : Bool) (app_input : String) (svc : Except String String)
  | mitEv (pressed : Bool) (svc : Except String String)

/-- The session state left by one interaction. -/
def applyEvent (s : SessionState) : Event → SessionState
  | .tmEv p a svc loads => (threatModelStep p a svc loads s).state
  | .atEv p a svc => (attackTreeStep p a svc s).state
  | .mitEv p svc => (mitigationsStep p svc s).state

/-- The session state after a sequence of interactions. -/
def runEvents (s : SessionState) (es : List Event) : SessionState :=
  es.foldl applyEvent s

/-- The threat model an interaction stores, if it is a threat-model
submission whose call succeeded and whose content parsed as a JSON object:
exactly the value the handler extracts with .get("threat_model", []). -/
def eventWrite : Event → Option JValue
  | .tmEv p a svc loads =>
    if p ∧ a ≠ "" then
      match get_threat_model svc loads with
      | .ok (.obj d) => some (extractThreatModel d)
      | _ => none
    else none
  | _ => none

/-- The last successfully parsed threat model along a trace, starting from
whatever the session already held. -/
def lastWrite (init : Option JValue) (es : List Event) : Option JValue :=
  es.foldl (fun acc e =>
    match eventWrite e with
    | some v => some v
    | none => acc) init

/- ------------------ helper lemmas ------------------ -/

lemma exBind_ok {α β : Type} (a : α) (f : α → Except String β) :
    (Except.ok a >>= f) = f a := rfl

lemma exBind_error {α β : Type} (e : String) (f : α → Except String β) :
    ((Except.error e : Except String α) >>= f) = Except.error e := rfl

lemma exPure_eq {α : Type} (a : α) : (pure a : Except String α) = Except.ok a := rfl

lemma get_threat_model_svc_error (e : String) (loads : String → Except String JValue) :
    get_threat_model (.error e) loads = .error e := rfl

lemma get_threat_model_parse_error (c pe : String) :
    get_threat_model (.ok c) (fun _ => .error pe) = .error pe := rfl

lemma attackTreeStep_state (p : Bool) (a : String) (svc : Except String String)
    (s : SessionState) : (attackTreeStep p a svc s).state = s := by
  unfold attackTreeStep
  split_ifs
  · cases svc <;> rfl
  · rfl

lemma mitigationsStep_state (p : Bool) (svc : Except String String)
    (s : SessionState) : (mitigationsStep p svc s).state = s := by
  unfold mitigationsStep
  repeat' split
  all_goals rfl

lemma applyEvent_threat_model (s : SessionState) (e : Event) :
    (applyEvent s e).threat_model =
      match eventWrite e with
      | some v => some v
      | none => s.threat_model := by
  cases e with
  | tmEv p a svc loads =>
    show (threatModelStep p a svc loads s).state.threat_model = _
    simp only [eventWrite]
    unfold threatModelStep
    split_ifs with h h2
    · cases hg : get_threat_model svc loads with
      | error e' => simp [hg]
      | ok v =>
        cases v with
        | obj d =>
          cases hj : json_to_markdown (extractThreatModel d) (extractSuggestions d) <;>
            simp [hg, hj]
        | null => simp [hg]
        | bool b => simp [hg]
        | num q => simp [hg]
        | str t => simp [hg]
        | arr l => simp [hg]
    · rfl
    · rfl
  | atEv p a svc =>
    show (attackTreeStep p a svc s).state.threat_model = _
    rw [attackTreeStep_state]
    rfl
  | mitEv p svc =>
    show (mitigationsStep p svc s).state.threat_model = _
    rw [mitigationsStep_state]
    rfl

lemma runEvents_threat_model (es : List Event) : ∀ s : SessionState,
    (runEvents s es).threat_model = lastWrite s.threat_model es := by
  induction es with
  | nil => intro s; rfl
  | cons e es ih =>
    intro s
    have h1 : runEvents s (e :: es) = runEvents (applyEvent s e) es := rfl
    have h2 : lastWrite s.threat_model (e :: es)
        = lastWrite (match eventWrite e with
            | some v => some v
            | none => s.threat_model) es := rfl
    rw [h1, ih, h2, applyEvent_threat_model]

/- ------------------ claims ------------------ -/

/-- Claim C8 (confirmed): on the specific input ```mermaid\ngraph TD\nA-->B\n```
the attack-tree fence stripping yields exactly graph TD\nA-->B, with no
leading or trailing fence lines. -/
theorem C8_fence_strip_example :
    stripFences "```mermaid\ngraph TD\nA-->B\n```" = "graph TD\nA-->B" := by decide

/-- Claim C6 (confirmed): a mitigations submission with no threat model in
session state shows exactly the validation message "Please generate a threat
model first before suggesting mitigations." and issues no generation call. -/
theorem C6_mitigations_gate_absent (svc : Except String String) :
    (mitigationsStep true svc ⟨none⟩).errors
      = ["Please generate a threat model first before suggesting mitigations."]
    ∧ (mitigationsStep true svc ⟨none⟩).callAttempted = false :=
  ⟨rfl, rfl⟩

/-- Claim C4, counterexample: an attack-tree submission with an empty
description shows no message at all — in particular not the claimed
"Please enter your application details before submitting." (that branch
exists only in the threat-model section of the source). -/
theorem C4_counterexample :
    "Please enter your application details before submitting."
        ∉ (attackTreeStep true "" (.ok "graph TD\n  A-->B") ⟨none⟩).errors
    ∧ (attackTreeStep true "" (.ok "graph TD\n  A-->B") ⟨none⟩).callAttempted = false := by
  constructor
  · intro h
    simp [attackTreeStep] at h
  · rfl

/-- Claim C4 (corrected): an attack-tree submission with an empty application
description attempts no generation call, but it also displays no validation
message — the handler silently does nothing for that rerun. -/
theorem C4_attack_tree_empty_input_silent (svc : Except String String) (s : SessionState) :
    attackTreeStep true "" svc s
      = { state := s, errors := [], download := none,
          callAttempted := false, crashed := false } := rfl

/-- Claim C3 (confirmed): when the threat-model generation call fails, the
failure is caught at the call site, "Error generating threat model: <message>"
is shown, and no download artifact is produced for that attempt. -/
theorem C3_threat_model_error_shown_no_download (a e : String)
    (loads : String → Except String JValue) (s : SessionState) (h : a ≠ "") :
    (threatModelStep true a (.error e) loads s).errors
      = ["Error generating threat model: " ++ e]
    ∧ (threatModelStep true a (.error e) loads s).download = none := by
  unfold threatModelStep
  rw [get_threat_model_svc_error]
  simp [h]

/-- Witness for C3 at a concrete failed submission. -/
theorem C3_witness :
    (threatModelStep true "app" (.error "boom") (fun _ => .ok .null) ⟨none⟩).errors
      = ["Error generating threat model: boom"]
    ∧ (threatModelStep true "app" (.error "boom") (fun _ => .ok .null) ⟨none⟩).download = none :=
  C3_threat_model_error_shown_no_download "app" "boom" (fun _ => .ok .null) ⟨none⟩ (by decide)

/-- Claim C2 (confirmed): a failed generation call leaves the stored session
threat model unchanged, a failed JSON parse leaves it unchanged, and along any
sequence of interactions the session's threat model is exactly the value
extracted by the last threat-model submission whose call succeeded and whose
content parsed — never a value from a failed attempt. -/
theorem C2_session_threat_model_integrity :
    (∀ (p : Bool) (a e : String) (loads : String → Except String JValue) (s : SessionState),
      (threatModelStep p a (.error e) loads s).state = s)
    ∧ (∀ (p : Bool) (a c pe : String) (s : SessionState),
      (threatModelStep p a (.ok c) (fun _ => .error pe) s).state = s)
    ∧ (∀ (es : List Event) (s : SessionState),
      (runEvents s es).threat_model = lastWrite s.threat_model es) := by
  refine ⟨?_, ?_, ?_⟩
  · intro p a e loads s
    unfold threatModelStep
    rw [get_threat_model_svc_error]
    split_ifs <;> rfl
  · intro p a c pe s
    unfold threatModelStep
    rw [get_threat_model_parse_error]
    split_ifs <;> rfl
  · intro es s
    exact runEvents_threat_model es s

/-- Claim C5 (confirmed): a response parsing as a JSON object with no
"threat_model" key yields an empty threat list (stored as such, no error) and
a missing "improvement_suggestions" key yields an empty suggestion list, while
a JSON parse failure propagates out of get_threat_model to the caller's
handler, which shows it as an error. -/
theorem C5_missing_keys_and_parse_failure :
    (∀ d : List (String × JValue),
      d.lookup "threat_model" = none → extractThreatModel d = .arr [])
    ∧ (∀ d : List (String × JValue),
      d.lookup "improvement_suggestions" = none → extractSuggestions d = .arr [])
    ∧ (∀ (d : List (String × JValue)) (a c : String) (s : SessionState),
      a ≠ "" → d.lookup "threat_model" = none →
      d.lookup "improvement_suggestions" = none →
      (threatModelStep true a (.ok c) (fun _ => .ok (.obj d)) s).errors = []
      ∧ (threatModelStep true a (.ok c) (fun _ => .ok (.obj d)) s).state
          = ⟨some (.arr [])⟩)
    ∧ (∀ (a c pe : String) (s : SessionState), a ≠ "" →
      (threatModelStep true a (.ok c) (fun _ => .error pe) s).errors
        = ["Error generating threat model: " ++ pe]) := by
  refine ⟨?_, ?_, ?_, ?_⟩
  · intro d h
    simp [extractThreatModel, h]
  · intro d h
    simp [extractSuggestions, h]
  · intro d a c s ha h1 h2
    have htm : extractThreatModel d = .arr [] := by simp [extractThreatModel, h1]
    have hsug : extractSuggestions d = .arr [] := by simp [extractSuggestions, h2]
    have hget : get_threat_model (.ok c) (fun _ => .ok (.obj d)) = .ok (.obj d) := rfl
    unfold threatModelStep
    rw [hget]
    simp only [htm, hsug]
    have hmd : json_to_markdown (.arr []) (.arr [])
        = .ok ("## Threat Model\n\n"
          ++ "| Threat Type | Scenario | Potential Impact |\n"
          ++ "|-------------|----------|------------------|\n"
          ++ String.join []
          ++ "\n\n## Improvement Suggestions\n\n"
          ++ String.join []) := rfl
    rw [hmd]
    simp [ha]
  · intro a c pe s ha
    unfold threatModelStep
    rw [get_threat_model_parse_error]
    simp [ha]

/-- Witness for C5 at a concrete parsed object missing both keys, and a
concrete parse failure. -/
theorem C5_witness :
    ((threatModelStep true "a web app" (.ok "x")
        (fun _ => .ok (.obj [("other", JValue.null)])) ⟨none⟩).errors = []
      ∧ (threatModelStep true "a web app" (.ok "x")
          (fun _ => .ok (.obj [("other", JValue.null)])) ⟨none⟩).state
        = ⟨some (.arr [])⟩)
    ∧ (threatModelStep true "a web app" (.ok "not json")
        (fun _ => .error "Expecting value") ⟨none⟩).errors
      = ["Error generating threat model: Expecting value"] :=
  ⟨C5_missing_keys_and_parse_failure.2.2.1 [("other", JValue.null)] "a web app" "x"
      ⟨none⟩ (by decide) rfl rfl,
    C5_missing_keys_and_parse_failure.2.2.2 "a web app" "not json" "Expecting value"
      ⟨none⟩ (by decide)⟩

/-- Claim C9 (confirmed): after a threat-model generation that succeeded but
stored an empty threat list (response object without a "threat_model" key), a
mitigations submission is rejected with the same validation message as if no
threat model existed, and no call is attempted: the gate requires the stored
list to be truthy (non-empty), not merely present. -/
theorem C9_empty_threat_list_rejected (d : List (String × JValue))
    (a c : String) (s : SessionState) (svc2 : Except String String)
    (ha : a ≠ "") (h1 : d.lookup "threat_model" = none) :
    (mitigationsStep true svc2
        (threatModelStep true a (.ok c) (fun _ => .ok (.obj d)) s).state).errors
      = ["Please generate a threat model first before suggesting mitigations."]
    ∧ (mitigationsStep true svc2
        (threatModelStep true a (.ok c) (fun _ => .ok (.obj d)) s).state).callAttempted
      = false := by
  have htm : extractThreatModel d = .arr [] := by simp [extractThreatModel, h1]
  have hget : get_threat_model (.ok c) (fun _ => .ok (.obj d)) = .ok (.obj d) := rfl
  have hstate : (threatModelStep true a (.ok c) (fun _ => .ok (.obj d)) s).state
      = ⟨some (.arr [])⟩ := by
    unfold threatModelStep
    rw [hget]
    simp only [htm]
    cases hj : json_to_markdown (.arr []) (extractSuggestions d) <;> simp [ha, hj]
  rw [hstate]
  exact ⟨rfl, rfl⟩

/-- Witness for C9 at a concrete empty-threat-list session. -/
theorem C9_witness :
    (mitigationsStep true (.ok "mitigation text")
        (threatModelStep true "my app" (.ok "y")
          (fun _ => .ok (.obj [("foo", JValue.bool true)])) ⟨none⟩).state).errors
      = ["Please generate a threat model first before suggesting mitigations."]
    ∧ (mitigationsStep true (.ok "mitigation text")
        (threatModelStep true "my app" (.ok "y")
          (fun _ => .ok (.obj [("foo", JValue.bool true)])) ⟨none⟩).state).callAttempted
      = false :=
  C9_empty_threat_list_rejected [("foo", JValue.bool true)] "my app" "y" ⟨none⟩
    (.ok "mitigation text") (by decide) rfl

/-- Whether a threat entry (a parsed JSON object) carries all three keys the
markdown renderer subscripts. -/
def entryHasKeys (d : List (String × JValue)) : Bool :=
  (d.lookup "Threat Type").isSome
    && (d.lookup "Scenario").isSome
    && (d.lookup "Potential Impact").isSome

/-- Whether a modelled Python computation completed without an exception. -/
def isOkE {α : Type} : Except String α → Bool
  | .ok _ => true
  | .error _ => false

lemma threatRow_obj (d : List (String × JValue)) :
    isOkE (threatRow (.obj d)) = entryHasKeys d := by
  unfold threatRow pySubscript entryHasKeys
  cases h1 : d.lookup "Threat Type" <;>
    cases h2 : d.lookup "Scenario" <;>
      cases h3 : d.lookup "Potential Impact" <;>
        simp [h1, h2, h3, exBind_ok, exBind_error, exPure_eq, isOkE]

lemma rowsM_isOk (ts : List JValue) :
    isOkE (rowsM ts) = ts.all (fun t => isOkE (threatRow t)) := by
  induction ts with
  | nil => rfl
  | cons t ts ih =>
    have hr : rowsM (t :: ts)
        = threatRow t >>= fun r => rowsM ts >>= fun rs => pure (r :: rs) := rfl
    rw [hr]
    simp only [List.all_cons]
    cases h : threatRow t with
    | error e =>
      rw [exBind_error]
      exact (Bool.false_and _).symm
    | ok r =>
      rw [exBind_ok]
      cases h2 : rowsM ts with
      | error e2 =>
        rw [h2] at ih
        rw [exBind_error, ← ih]
        rfl
      | ok rs =>
        rw [h2] at ih
        rw [exBind_ok, exPure_eq, ← ih]
        rfl

lemma json_to_markdown_arr_isOk (ts sl : List JValue) :
    isOkE (json_to_markdown (.arr ts) (.arr sl)) = isOkE (rowsM ts) := by
  unfold json_to_markdown pyIter
  cases h : rowsM ts with
  | error e => simp [h, exBind_ok, exBind_error, isOkE]
  | ok rows => simp [h, exBind_ok, exPure_eq, isOkE]

/-- Claim C10 (confirmed): the markdown renderer succeeds on a list of parsed
entries exactly when every entry carries all three keys "Threat Type",
"Scenario" and "Potential Impact" (a missing key raises a lookup error
instead of producing output); and when the stored threat model makes the
renderer fail, the mitigations rerun crashes before any service call, since
its json_to_markdown call runs outside the try/except. -/
theorem C10_renderer_total_iff_keys :
    (∀ (ds : List (List (String × JValue))) (sl : List JValue),
      isOkE (json_to_markdown (.arr (ds.map JValue.obj)) (.arr sl)) = true
        ↔ ∀ d ∈ ds, entryHasKeys d = true)
    ∧ (∀ (svc : Except String String) (s : SessionState) (v : JValue),
      s.threat_model = some v → pyTruthy v = true →
      isOkE (json_to_markdown v (.arr [])) = false →
      (mitigationsStep true svc s).crashed = true
      ∧ (mitigationsStep true svc s).callAttempted = false) := by
  constructor
  · intro ds sl
    rw [json_to_markdown_arr_isOk, rowsM_isOk]
    simp [List.all_map, Function.comp, threatRow_obj, List.all_eq_true]
  · intro svc s v hv htr hfail
    unfold mitigationsStep
    rw [hv]
    cases hj : json_to_markdown v (.arr []) with
    | ok md =>
      rw [hj] at hfail
      simp [isOkE] at hfail
    | error e => simp [htr, hj]

/-- Witness for C10 at a concrete malformed entry (an object with none of the
three keys) stored in session state. -/
theorem C10_witness :
    (mitigationsStep true (.ok "text") ⟨some (.arr [JValue.obj []])⟩).crashed = true
    ∧ (mitigationsStep true (.ok "text") ⟨some (.arr [JValue.obj []])⟩).callAttempted
      = false :=
  C10_renderer_total_iff_keys.2 (.ok "text") ⟨some (.arr [JValue.obj []])⟩
    (.arr [JValue.obj []]) rfl rfl rfl

/-- Substring containment, stated over the underlying character data. -/
def containsSub (s sub : String) : Prop := sub.data <:+: s.data

lemma containsSub_of (pre post s sub : String) (h : s = pre ++ (sub ++ post)) :
    containsSub s sub := by
  subst h
  exact ⟨pre.data, post.data, by simp [String.data_append, List.append_assoc]⟩

lemma authLabelSplit (R : String) :
    "\nAUTHENTICATION METHODS: " ++ ("[]" ++ R)
      = "\n" ++ ("AUTHENTICATION METHODS: []" ++ R) := by
  rw [← String.append_assoc, ← String.append_assoc]
  congr 1

/-- Claim C7 (confirmed): for every valid application profile the built
threat-model prompt contains the description verbatim and the verbatim
string forms of all six profile fields, and an empty authentication
selection is rendered as the empty list marker [] rather than omitted. -/
theorem C7_prompt_contains_fields (t : AppType) (auth : List AuthMethod)
    (i : YesNo) (sd : Sensitivity) (p : YesNo) (desc : String) :
    containsSub (create_threat_model_prompt t.toText (auth.map AuthMethod.toText)
        i.toText sd.toText p.toText desc) desc
    ∧ containsSub (create_threat_model_prompt t.toText (auth.map AuthMethod.toText)
        i.toText sd.toText p.toText desc) t.toText
    ∧ containsSub (create_threat_model_prompt t.toText (auth.map AuthMethod.toText)
        i.toText sd.toText p.toText desc) (pyListRepr (auth.map AuthMethod.toText))
    ∧ containsSub (create_threat_model_prompt t.toText (auth.map AuthMethod.toText)
        i.toText sd.toText p.toText desc) i.toText
    ∧ containsSub (create_threat_model_prompt t.toText (auth.map AuthMethod.toText)
        i.toText sd.toText p.toText desc) sd.toText
    ∧ containsSub (create_threat_model_prompt t.toText (auth.map AuthMethod.toText)
        i.toText sd.toText p.toText desc) p.toText
    ∧ (auth = [] → containsSub (create_threat_model_prompt t.toText
        (auth.map AuthMethod.toText) i.toText sd.toText p.toText desc)
        "AUTHENTICATION METHODS: []") := by
  refine ⟨?_, ?_, ?_, ?_, ?_, ?_, ?_⟩
  · exact containsSub_of
      (tmPromptPre ++ t.toText ++ "\nAUTHENTICATION METHODS: "
        ++ pyListRepr (auth.map AuthMethod.toText) ++ "\nINTERNET FACING: "
        ++ i.toText ++ "\nSENSITIVE DATA: " ++ sd.toText
        ++ "\nPRIVILEGED ACCESS MANAGEMENT: " ++ p.toText
        ++ "\nAPPLICATION DESCRIPTION: ")
      tmPromptPost _ _
      (by simp only [create_threat_model_prompt, String.append_assoc])
  · exact containsSub_of tmPromptPre
      ("\nAUTHENTICATION METHODS: " ++ pyListRepr (auth.map AuthMethod.toText)
        ++ "\nINTERNET FACING: " ++ i.toText ++ "\nSENSITIVE DATA: " ++ sd.toText
        ++ "\nPRIVILEGED ACCESS MANAGEMENT: " ++ p.toText
        ++ "\nAPPLICATION DESCRIPTION: " ++ desc ++ tmPromptPost) _ _
      (by simp only [create_threat_model_prompt, String.append_assoc])
  · exact containsSub_of (tmPromptPre ++ t.toText ++ "\nAUTHENTICATION METHODS: ")
      ("\nINTERNET FACING: " ++ i.toText ++ "\nSENSITIVE DATA: " ++ sd.toText
        ++ "\nPRIVILEGED ACCESS MANAGEMENT: " ++ p.toText
        ++ "\nAPPLICATION DESCRIPTION: " ++ desc ++ tmPromptPost) _ _
      (by simp only [create_threat_model_prompt, String.append_assoc])
  · exact containsSub_of
      (tmPromptPre ++ t.toText ++ "\nAUTHENTICATION METHODS: "
        ++ pyListRepr (auth.map AuthMethod.toText) ++ "\nINTERNET FACING: ")
      ("\nSENSITIVE DATA: " ++ sd.toText ++ "\nPRIVILEGED ACCESS MANAGEMENT: "
        ++ p.toText ++ "\nAPPLICATION DESCRIPTION: " ++ desc ++ tmPromptPost) _ _
      (by simp only [create_threat_model_prompt, String.append_assoc])
  · exact containsSub_of
      (tmPromptPre ++ t.toText ++ "\nAUTHENTICATION METHODS: "
        ++ pyListRepr (auth.map AuthMethod.toText) ++ "\nINTERNET FACING: "
        ++ i.toText ++ "\nSENSITIVE DATA: ")
      ("\nPRIVILEGED ACCESS MANAGEMENT: " ++ p.toText
        ++ "\nAPPLICATION DESCRIPTION: " ++ desc ++ tmPromptPost) _ _
      (by simp only [create_threat_model_prompt, String.append_assoc])
  · exact containsSub_of
      (tmPromptPre ++ t.toText ++ "\nAUTHENTICATION METHODS: "
        ++ pyListRepr (auth.map AuthMethod.toText) ++ "\nINTERNET FACING: "
        ++ i.toText ++ "\nSENSITIVE DATA: " ++ sd.toText
        ++ "\nPRIVILEGED ACCESS MANAGEMENT: ")
      ("\nAPPLICATION DESCRIPTION: " ++ desc ++ tmPromptPost) _ _
      (by simp only [create_threat_model_prompt, String.append_assoc])
  · intro hauth
    subst hauth
    have e0 : pyListRepr (List.map AuthMethod.toText []) = "[]" := rfl
    exact containsSub_of (tmPromptPre ++ t.toText ++ "\n")
      ("\nINTERNET FACING: " ++ i.toText ++ "\nSENSITIVE DATA: " ++ sd.toText
        ++ "\nPRIVILEGED ACCESS MANAGEMENT: " ++ p.toText
        ++ "\nAPPLICATION DESCRIPTION: " ++ desc ++ tmPromptPost) _ _
      (by simp only [create_threat_model_prompt, e0, String.append_assoc,
        authLabelSplit])

/-- Witness for C7 at a concrete profile with an empty authentication set. -/
theorem C7_witness :
    containsSub (create_threat_model_prompt AppType.web.toText
        (List.map AuthMethod.toText []) YesNo.yes.toText Sensitivity.topSecret.toText
        YesNo.no.toText "a note-taking web app") "a note-taking web app"
    ∧ containsSub (create_threat_model_prompt AppType.web.toText
        (List.map AuthMethod.toText []) YesNo.yes.toText Sensitivity.topSecret.toText
        YesNo.no.toText "a note-taking web app") "AUTHENTICATION METHODS: []" :=
  ⟨(C7_prompt_contains_fields AppType.web [] YesNo.yes Sensitivity.topSecret
      YesNo.no "a note-taking web app").1,
    (C7_prompt_contains_fields AppType.web [] YesNo.yes Sensitivity.topSecret
      YesNo.no "a note-taking web app").2.2.2.2.2.2 rfl⟩

lemma subFencesGo_nil (f : Nat) (b : Bool) : subFencesGo f b [] = [] := by
  cases f <;> rfl

lemma marker_no_match (l : List Char) {c : Char} (hc : c ≠ backquote) :
    mermaidMarker.isPrefixOf (c :: l) = false := by
  have hb : (backquote == c) = false := beq_eq_false_iff_ne.mpr (Ne.symm hc)
  simp [mermaidMarker, List.isPrefixOf, hb]

lemma ticks_no_match (l : List Char) {c : Char} (hc : c ≠ backquote) :
    ticks.isPrefixOf (c :: l) = false := by
  have hb : (backquote == c) = false := beq_eq_false_iff_ne.mpr (Ne.symm hc)
  simp [ticks, List.isPrefixOf, hb]

lemma exists_nonspace_tail (a : Char) (l : List Char)
    (h : ∃ x ∈ a :: l, pySpace x = false) (ha : pySpace a = true) :
    ∃ x ∈ l, pySpace x = false := by
  obtain ⟨x, hx, hxs⟩ := h
  rcases List.mem_cons.mp hx with rfl | hx'
  · rw [ha] at hxs
    cases hxs
  · exact ⟨x, hx', hxs⟩

lemma dropWhile_head (l : List Char) (h : ∃ x ∈ l, pySpace x = false) :
    ∃ d ds, l.dropWhile pySpace = d :: ds ∧ d ∈ l ∧ pySpace d = false := by
  induction l with
  | nil =>
    obtain ⟨x, hx, _⟩ := h
    exact absurd hx (List.not_mem_nil x)
  | cons a l ih =>
    by_cases ha : pySpace a = true
    · obtain ⟨d, ds, h1, h2, h3⟩ := ih (exists_nonspace_tail a l h ha)
      exact ⟨d, ds, by simp [List.dropWhile_cons, ha, h1],
        List.mem_cons_of_mem a h2, h3⟩
    · exact ⟨a, l, by simp [List.dropWhile_cons, ha],
        List.mem_cons_self a l, by simpa using ha⟩

lemma dropWhile_append_of_mem (l t : List Char) (h : ∃ x ∈ l, pySpace x = false) :
    (l ++ t).dropWhile pySpace = l.dropWhile pySpace ++ t := by
  induction l with
  | nil =>
    obtain ⟨x, hx, _⟩ := h
    exact absurd hx (List.not_mem_nil x)
  | cons a l ih =>
    by_cases ha : pySpace a = true
    · simp [List.cons_append, List.dropWhile_cons, ha,
        ih (exists_nonspace_tail a l h ha)]
    · simp [List.cons_append, List.dropWhile_cons, ha]

lemma last_mem_nonspace : ∀ l : List Char,
    (∀ z, l.getLast? = some z → pySpace z = false) → l ≠ [] →
    ∃ x ∈ l, pySpace x = false := by
  intro l
  induction l with
  | nil =>
    intro _ hne
    exact absurd rfl hne
  | cons a l ih =>
    intro h _
    cases hl : l with
    | nil =>
      subst hl
      exact ⟨a, List.mem_cons_self a [], h a (by simp)⟩
    | cons b l' =>
      subst hl
      obtain ⟨x, hx, hxs⟩ :=
        ih (fun z hz => h z (by rw [List.getLast?_cons_cons]; exact hz))
          (List.cons_ne_nil b l')
      exact ⟨x, List.mem_cons_of_mem a hx, hxs⟩

/-- Core of the fence-stripping analysis: a backquote-free body whose last
character is not whitespace passes through the scanner unchanged, and the
trailing newline plus closing fence is consumed as one final match. -/
lemma subFencesGo_body : ∀ body : List Char, ∀ (fuel : Nat) (bol : Bool),
    body.length + 4 ≤ fuel →
    (∀ x ∈ body, x ≠ backquote) →
    (∀ z, body.getLast? = some z → pySpace z = false) →
    subFencesGo fuel bol (body ++ '\n' :: ticks) = body := by
  intro body
  induction body with
  | nil =>
    intro fuel bol hfuel _ _
    obtain ⟨f, rfl⟩ : ∃ f, fuel = f + 1 := ⟨fuel - 1, by omega⟩
    show subFencesGo (f + 1) bol ('\n' :: ticks) = []
    have step2 : subFencesGo (f + 1) bol ('\n' :: ticks) = subFencesGo f false [] := by
      cases bol <;> rfl
    rw [step2, subFencesGo_nil]
  | cons c bs ih =>
    intro fuel bol hfuel hbq hlast
    obtain ⟨f, rfl⟩ : ∃ f, fuel = f + 1 := ⟨fuel - 1, by omega⟩
    have hc : c ≠ backquote := hbq c (List.mem_cons_self c bs)
    have hcond : (bol && mermaidMarker.isPrefixOf (c :: (bs ++ '\n' :: ticks))) = false := by
      rw [marker_no_match _ hc]
      exact Bool.and_false bol
    have hbq' : ∀ x ∈ bs, x ≠ backquote := fun x hx => hbq x (List.mem_cons_of_mem c hx)
    have hlast' : ∀ z, bs.getLast? = some z → pySpace z = false := by
      intro z hz
      apply hlast z
      cases bs with
      | nil => simp at hz
      | cons b bs' => rw [List.getLast?_cons_cons]; exact hz
    have hf' : bs.length + 4 ≤ f := by
      simp only [List.length_cons] at hfuel
      omega
    show subFencesGo (f + 1) bol ((c :: bs) ++ '\n' :: ticks) = c :: bs
    simp only [List.cons_append]
    by_cases hsp : pySpace c = true
    · -- c is whitespace: bs must contain a later non-space character, so the
      -- whitespace run never reaches a closing fence and c is kept
      have hbsne : bs ≠ [] := by
        intro h0
        subst h0
        have := hlast c (by simp)
        rw [this] at hsp
        cases hsp
      have hbs : ∃ x ∈ bs, pySpace x = false := last_mem_nonspace bs hlast' hbsne
      obtain ⟨d, ds, hdd, hdmem, hdsp⟩ := dropWhile_head bs hbs
      have hd2 : (c :: (bs ++ '\n' :: ticks)).dropWhile pySpace
          = d :: (ds ++ '\n' :: ticks) := by
        rw [List.dropWhile_cons]
        simp only [hsp, if_true]
        rw [dropWhile_append_of_mem bs _ hbs, hdd]
        simp [List.cons_append]
      have ht : ticks.isPrefixOf (d :: (ds ++ '\n' :: ticks)) = false :=
        ticks_no_match _ (hbq d (List.mem_cons_of_mem c hdmem))
      have hcond2 : (ticks.isPrefixOf ((c :: (bs ++ '\n' :: ticks)).dropWhile pySpace)
          && atLineEnd (((c :: (bs ++ '\n' :: ticks)).dropWhile pySpace).drop ticks.length))
          = false := by
        rw [hd2, ht]
        exact Bool.false_and _
      simp only [subFencesGo, hcond, Bool.false_eq_true, if_false, hcond2]
      rw [ih f (c == '\n') hf' hbq' hlast']
    · -- c is not whitespace: the whitespace run at c is empty and c is not a
      -- backquote, so no fence match starts here and c is kept
      have hd : (c :: (bs ++ '\n' :: ticks)).dropWhile pySpace
          = c :: (bs ++ '\n' :: ticks) := by
        simp [List.dropWhile_cons, hsp]
      have ht : ticks.isPrefixOf (c :: (bs ++ '\n' :: ticks)) = false :=
        ticks_no_match _ hc
      have hcond2 : (ticks.isPrefixOf ((c :: (bs ++ '\n' :: ticks)).dropWhile pySpace)
          && atLineEnd (((c :: (bs ++ '\n' :: ticks)).dropWhile pySpace).drop ticks.length))
          = false := by
        rw [hd, ht]
        exact Bool.false_and _
      simp only [subFencesGo, hcond, Bool.false_eq_true, if_false, hcond2]
      rw [ih f (c == '\n') hf' hbq' hlast']

/-- Claim C1, counterexample: on a wrapped text whose inner content contains
a further ``` delimiter line, the substitution also removes that inner line
(re.sub replaces every occurrence under MULTILINE), so the result is not the
claimed "inner content untouched" text. -/
theorem C1_counterexample :
    stripFences "```mermaid\nA\n```\nB\n```" = "A\nB"
    ∧ stripFences "```mermaid\nA\n```\nB\n```" ≠ "A\n```\nB" := by decide

/-- Claim C1 (corrected): the substitution removes every line-anchored
occurrence, not only the first: inner delimiter-like lines are stripped as
well (second conjunct).  When the inner content contains no backquote and
neither starts nor ends with whitespace, exactly the leading marker line and
the trailing delimiter line are removed and the inner content is returned
untouched (first conjunct). -/
theorem C1_fence_strip :
    (∀ body : List Char,
      (∀ x ∈ body, x ≠ backquote) →
      (∀ z, body.head? = some z → pySpace z = false) →
      (∀ z, body.getLast? = some z → pySpace z = false) →
      stripFences (String.mk (mermaidMarker ++ '\n' :: (body ++ '\n' :: ticks)))
        = String.mk body)
    ∧ stripFences "```mermaid\nA\n```\nB\n```" = "A\nB" := by
  constructor
  · intro body hbq hhead hlast
    cases body with
    | nil => decide
    | cons c bs =>
      have hhc : pySpace c = false := hhead c rfl
      unfold stripFences
      have hlen : (String.mk (mermaidMarker ++ '\n' :: ((c :: bs) ++ '\n' :: ticks))).data.length
          = bs.length + 16 := by
        show (mermaidMarker ++ '\n' :: ((c :: bs) ++ '\n' :: ticks)).length = bs.length + 16
        simp [mermaidMarker, ticks, List.length_append, List.length_cons]
      rw [hlen]
      have step : subFencesGo (bs.length + 16) true
            (String.mk (mermaidMarker ++ '\n' :: ((c :: bs) ++ '\n' :: ticks))).data
          = subFencesGo (bs.length + 15)
              (endsNewline (('\n' :: ((c :: bs) ++ '\n' :: ticks)).takeWhile pySpace))
              (('\n' :: ((c :: bs) ++ '\n' :: ticks)).dropWhile pySpace) := rfl
      rw [step]
      have hdw : ('\n' :: ((c :: bs) ++ '\n' :: ticks)).dropWhile pySpace
          = (c :: bs) ++ '\n' :: ticks := by
        have hn : pySpace '\n' = true := rfl
        simp [List.dropWhile_cons, List.cons_append, hn, hhc]
      rw [hdw]
      have hfin : subFencesGo (bs.length + 15)
            (endsNewline (('\n' :: ((c :: bs) ++ '\n' :: ticks)).takeWhile pySpace))
            ((c :: bs) ++ '\n' :: ticks) = c :: bs :=
        subFencesGo_body (c :: bs) (bs.length + 15) _
          (by simp only [List.length_cons]; omega) hbq hlast
      rw [hfin]
  · decide

/-- Witness for C1 at a concrete backquote-free diagram body. -/
theorem C1_witness :
    stripFences (String.mk (mermaidMarker ++ '\n' :: ("graph LR\nX-->Y".data ++ '\n' :: ticks)))
      = String.mk "graph LR\nX-->Y".data :=
  C1_fence_strip.1 "graph LR\nX-->Y".data (by decide) (by decide) (by decide)

end StrideGpt
